import Mathlib

/-!
Hexagon layer: instanced-geometry update pipeline.

A shallow embedding of the hexagon map layer's update pipeline
(`src/layers/hexagon-layer/index.js`): the instance-buffer builder
(`_allocateGLBuffers`, `_calculatePositions`, `_calculateColors`,
`_calculatePickingColors`), the screen-space calibrator
(`_calculateRadiusAndAngle`), and the dirty-flag update scheduler
(`updateLayer`, `updateUniforms`, `updateAttributes`).

JavaScript numbers are modelled as real numbers extended with the
non-finite values `NaN`, `Infinity` and `-Infinity` (`JSVal`), so that the
propagation of non-finite values through `x / 0`, `Math.acos` outside
`[-1, 1]` and multiplication is captured faithfully.  A thrown `TypeError`
(indexing into an `undefined` vertex) is modelled with `Except`: the error
aborts the rest of the update pass, exactly as an uncaught exception does.

Members inherited from the absent base-layer class (`BaseMapLayer`) are
modelled from the spec; each such definition or field is marked
`Modelled from the spec:` in its doc comment.
-/

namespace HexagonLayer

noncomputable section

/-- A JavaScript number: either `NaN`, `±Infinity`, or a finite value
(modelled as a real number). -/
inductive JSVal where
  | nan : JSVal
  | posInf : JSVal
  | negInf : JSVal
  | num : ℝ → JSVal

/-- Source `Math.sign` on a finite number: `1`, `-1` or `0` (`±0` collapse to `0`
in the real-number model). -/
def jsSign (x : ℝ) : ℝ :=
  if 0 < x then 1 else if x < 0 then -1 else 0

/-- Division `a / b` of two finite JavaScript numbers: `0 / 0` is `NaN`,
`a / 0` with `a ≠ 0` is a signed infinity, otherwise the real quotient. -/
def jsDiv (a b : ℝ) : JSVal :=
  if b = 0 then
    if a = 0 then JSVal.nan
    else if 0 < a then JSVal.posInf else JSVal.negInf
  else JSVal.num (a / b)

/-- Source `Math.acos`: `NaN` on `NaN`, on `±Infinity` and outside `[-1, 1]`;
otherwise the principal arc cosine. -/
def jsAcos : JSVal → JSVal
  | JSVal.num x => if x < -1 ∨ 1 < x then JSVal.nan else JSVal.num (Real.arccos x)
  | _ => JSVal.nan

/-- Multiplication of a JavaScript number by a finite number:
`NaN` absorbs, `±Infinity` times zero is `NaN`, otherwise as expected. -/
def jsMulNum : JSVal → ℝ → JSVal
  | JSVal.nan, _ => JSVal.nan
  | JSVal.num a, b => JSVal.num (a * b)
  | JSVal.posInf, b =>
    if 0 < b then JSVal.posInf else if b < 0 then JSVal.negInf else JSVal.nan
  | JSVal.negInf, b =>
    if 0 < b then JSVal.negInf else if b < 0 then JSVal.posInf else JSVal.nan

/-- One dataset row: a world-space centroid, a 3-channel color, and the
item's hexagon outline vertices (of which only indices 0 and 3 are read). -/
structure HexagonItem where
  centroid : ℝ × ℝ
  color : ℝ × ℝ × ℝ
  vertices : List (ℝ × ℝ)

/-- The layer's per-update inputs: the dataset (`this.props.data`) together
with the configuration and collaborators inherited from the base layer.

Modelled from the spec (the base-layer class is not in the sources):
`dotRadius` is the construction option (default 10) read as `this.radius`
in `_calculateRadiusAndAngle`; `elevation` is the construction option
(default 101) read as `this.elevation`; `isPickable` is the pickable
configuration, fixed at construction; `pickingColor` is the external
picking-color-assignment collaborator (an injected per-instance 3-channel
identifier); `project` and `screenToSpace` are the world→space and
space→screen transforms of the viewport subsystem. -/
structure Config where
  data : List HexagonItem
  dotRadius : ℝ
  elevation : ℝ
  isPickable : Bool
  pickingColor : Nat → ℝ × ℝ × ℝ
  project : ℝ × ℝ → ℝ × ℝ
  screenToSpace : ℝ × ℝ → ℝ × ℝ

/-- A published attribute descriptor `{value, instanced, size}`. -/
structure AttrDesc (α : Type) where
  value : α
  instanced : Nat
  size : Nat

/-- The mutable layer state touched by the update pass (`this.state`).
Buffers are flat sequences; `pickingColors` is `none` while unallocated
(`undefined` in the source).  The published outputs (`this.state.uniforms`
and `this.state.attributes`) are `none` before they are first published. -/
structure LayerState where
  dataChanged : Bool
  viewportChanged : Bool
  positions : List ℝ
  colors : List ℝ
  pickingColors : Option (List ℝ)
  radius : ℝ
  angle : JSVal
  uniformRadius : Option ℝ
  uniformAngle : Option JSVal
  attrPositions : Option (AttrDesc (List ℝ))
  attrColors : Option (AttrDesc (List ℝ))
  attrPickingColors : Option (AttrDesc (Option (List ℝ)))

/-- A thrown JavaScript exception. -/
inductive JsError where
  | typeError : JsError

/-- Source `_allocateGLBuffers`: zero-filled buffers of length `N * 3` for
positions and colors, plus one for picking colors iff the layer is
pickable (otherwise the early return leaves the prior buffer in place).
Modelled from the spec: `this._numInstances` (base layer) is the dataset
size `N`. -/
def _allocateGLBuffers (cfg : Config) (s : LayerState) : LayerState :=
  let N := cfg.data.length
  let s' := { s with
    positions := List.replicate (N * 3) 0,
    colors := List.replicate (N * 3) 0 }
  if cfg.isPickable then
    { s' with pickingColors := some (List.replicate (N * 3) 0) }
  else s'

/-- One iteration of the `_calculatePositions` loop: write
`centroid.x, centroid.y, elevation` at indices `i*3, i*3+1, i*3+2`
(an out-of-range write into a typed array is discarded, as `List.set`
is out of range). -/
def writePosition (elevation : ℝ) (ps : List ℝ) (hexagon : HexagonItem) (i : Nat) :
    List ℝ :=
  ((ps.set (i * 3) hexagon.centroid.1).set (i * 3 + 1) hexagon.centroid.2).set
    (i * 3 + 2) elevation

/-- The `data.forEach((hexagon, i) => ...)` loop of `_calculatePositions`,
with `i` the index of the first remaining item. -/
def fillPositionsFrom (elevation : ℝ) :
    List HexagonItem → Nat → List ℝ → List ℝ
  | [], _, ps => ps
  | hexagon :: rest, i, ps =>
    fillPositionsFrom elevation rest (i + 1) (writePosition elevation ps hexagon i)

/-- Source `_calculatePositions`. -/
def _calculatePositions (cfg : Config) (s : LayerState) : LayerState :=
  { s with positions := fillPositionsFrom cfg.elevation cfg.data 0 s.positions }

/-- One iteration of the `_calculateColors` loop: write the three color
channels at indices `i*3, i*3+1, i*3+2`. -/
def writeColor (cs : List ℝ) (hexagon : HexagonItem) (i : Nat) : List ℝ :=
  ((cs.set (i * 3) hexagon.color.1).set (i * 3 + 1) hexagon.color.2.1).set
    (i * 3 + 2) hexagon.color.2.2

/-- The `data.forEach((hexagon, i) => ...)` loop of `_calculateColors`. -/
def fillColorsFrom : List HexagonItem → Nat → List ℝ → List ℝ
  | [], _, cs => cs
  | hexagon :: rest, i, cs => fillColorsFrom rest (i + 1) (writeColor cs hexagon i)

/-- Source `_calculateColors`. -/
def _calculateColors (cfg : Config) (s : LayerState) : LayerState :=
  { s with colors := fillColorsFrom cfg.data 0 s.colors }

/-- One write of the picking-color fill loop. -/
def writePicking (c : ℝ × ℝ × ℝ) (ps : List ℝ) (i : Nat) : List ℝ :=
  ((ps.set (i * 3) c.1).set (i * 3 + 1) c.2.1).set (i * 3 + 2) c.2.2

/-- The per-item loop of the picking-color fill. -/
def fillPickingFrom (f : Nat → ℝ × ℝ × ℝ) :
    List HexagonItem → Nat → List ℝ → List ℝ
  | [], _, ps => ps
  | _ :: rest, i, ps => fillPickingFrom f rest (i + 1) (writePicking (f i) ps i)

/-- Modelled from the spec: `_calculatePickingColors` lives in the absent
base-layer class; per the spec, when the layer is pickable it populates
`pickingColors[3i..3i+2]` with the injected per-instance 3-channel
identifier, and does nothing otherwise. -/
def _calculatePickingColors (cfg : Config) (s : LayerState) : LayerState :=
  if cfg.isPickable then
    { s with
      pickingColors := s.pickingColors.map (fillPickingFrom cfg.pickingColor cfg.data 0) }
  else s

/-- The `screenCoord` bindings of `_calculateRadiusAndAngle`: a vertex
mapped through the world→space projection and then the space→screen
transform. -/
def screenCoordOf (cfg : Config) (v : ℝ × ℝ) : ℝ × ℝ :=
  cfg.screenToSpace (cfg.project v)

/-- The `dx` binding: horizontal screen-space displacement between the two
projected reference vertices. -/
def dxOf (cfg : Config) (vertex0 vertex3 : ℝ × ℝ) : ℝ :=
  (screenCoordOf cfg vertex0).1 - (screenCoordOf cfg vertex3).1

/-- The `dy` binding: vertical screen-space displacement. -/
def dyOf (cfg : Config) (vertex0 vertex3 : ℝ × ℝ) : ℝ :=
  (screenCoordOf cfg vertex0).2 - (screenCoordOf cfg vertex3).2

/-- The `dxy` binding: `Math.sqrt(dx * dx + dy * dy)`. -/
def dxyOf (cfg : Config) (vertex0 vertex3 : ℝ × ℝ) : ℝ :=
  Real.sqrt (dxOf cfg vertex0 vertex3 * dxOf cfg vertex0 vertex3 +
    dyOf cfg vertex0 vertex3 * dyOf cfg vertex0 vertex3)

/-- The `this.state.angle` assignment:
`Math.acos(dx / dxy) * -Math.sign(dy)`. -/
def angleOf (cfg : Config) (vertex0 vertex3 : ℝ × ℝ) : JSVal :=
  jsMulNum (jsAcos (jsDiv (dxOf cfg vertex0 vertex3) (dxyOf cfg vertex0 vertex3)))
    (-jsSign (dyOf cfg vertex0 vertex3))

/-- The `this.state.radius` assignment: `dxy / 2 * Math.min(1, this.radius)`.
Modelled from the spec: `this.radius` (base layer) is the `dotRadius`
construction option. -/
def radiusOf (cfg : Config) (vertex0 vertex3 : ℝ × ℝ) : ℝ :=
  dxyOf cfg vertex0 vertex3 / 2 * min 1 cfg.dotRadius

/-- Source `_calculateRadiusAndAngle`: early return on a missing or empty dataset;
otherwise project `vertices[0]` and `vertices[3]` of item 0 to screen
space and derive the shared rotation angle and instance radius.  Reading a
vertex that is not present (`vertices` shorter than 4) throws a
`TypeError`.
Modelled from the spec: `this.project`/`this.screenToSpace` are the
viewport transforms of the absent base layer. -/
def _calculateRadiusAndAngle (cfg : Config) (s : LayerState) :
    Except JsError LayerState :=
  match cfg.data with
  | [] => Except.ok s
  | hexagon :: _ =>
    match hexagon.vertices[0]?, hexagon.vertices[3]? with
    | some vertex0, some vertex3 =>
      Except.ok { s with
        angle := angleOf cfg vertex0 vertex3,
        radius := radiusOf cfg vertex0 vertex3 }
    | _, _ => Except.error JsError.typeError

/-- Source `updateUniforms`: publish the current radius and angle. -/
def updateUniforms (s : LayerState) : LayerState :=
  { s with uniformRadius := some s.radius, uniformAngle := some s.angle }

/-- Source `updateAttributes`: publish the position and color buffers, and — iff
the layer is pickable (early return otherwise) — the picking-color
buffer. -/
def updateAttributes (cfg : Config) (s : LayerState) : LayerState :=
  let s' := { s with
    attrPositions := some ⟨s.positions, 1, 3⟩,
    attrColors := some ⟨s.colors, 1, 3⟩ }
  if cfg.isPickable then
    { s' with attrPickingColors := some ⟨s.pickingColors, 1, 3⟩ }
  else s'

/-- Source `updateLayer`: the dirty-flag scheduler.  On `dataChanged`, allocate
and fill all instance buffers; on `viewportChanged || dataChanged`,
recalibrate; always publish uniforms and attributes and clear both flags.
A thrown `TypeError` aborts the remainder of the pass. -/
def updateLayer (cfg : Config) (s : LayerState) : Except JsError LayerState :=
  let s1 :=
    if s.dataChanged then
      _calculatePickingColors cfg
        (_calculateColors cfg (_calculatePositions cfg (_allocateGLBuffers cfg s)))
    else s
  match
    (if s.viewportChanged || s.dataChanged then
      _calculateRadiusAndAngle cfg s1
    else Except.ok s1) with
  | Except.error e => Except.error e
  | Except.ok s2 =>
    let s3 := updateAttributes cfg (updateUniforms s2)
    Except.ok { s3 with dataChanged := false, viewportChanged := false }

/-- The full allocate-and-fill step run by `updateLayer` when
`dataChanged` is set. -/
def fillAll (cfg : Config) (s : LayerState) : LayerState :=
  _calculatePickingColors cfg
    (_calculateColors cfg (_calculatePositions cfg (_allocateGLBuffers cfg s)))

/-- The terminal publish step of `updateLayer`: publish uniforms and
attributes, then clear both dirty flags. -/
def publish (cfg : Config) (s : LayerState) : LayerState :=
  { updateAttributes cfg (updateUniforms s) with
    dataChanged := false, viewportChanged := false }

/-! ### Concrete fixtures used for counterexamples and witnesses -/

/-- An item whose `vertices` list has only 2 entries. -/
def shortVerticesItem : HexagonItem := ⟨(0, 0), (0, 0, 0), [(0, 0), (1, 1)]⟩

/-- An item whose `vertices` list has only 3 entries. -/
def threeVerticesItem : HexagonItem := ⟨(5, 5), (1, 2, 3), [(0, 0), (2, 2), (3, 3)]⟩

/-- An item with a well-formed unit-square vertex list:
`vertices[0] = (0, 0)` and `vertices[3] = (1, 0)`. -/
def squareItem : HexagonItem := ⟨(0, 0), (0, 0, 0), [(0, 0), (0, 1), (1, 1), (1, 0)]⟩

/-- An item whose reference vertices 0 and 3 coincide at `(1, 2)`. -/
def coincidentItem : HexagonItem := ⟨(0, 0), (0, 0, 0), [(1, 2), (0, 0), (0, 0), (1, 2)]⟩

/-- An item used for buffer-fill examples (vertices unused). -/
def plainItem : HexagonItem := ⟨(1, 2), (10, 20, 30), []⟩

/-- A configuration with identity projections built around one item. -/
def cfgWith (hexagon : HexagonItem) (dotRadius : ℝ) : Config :=
  ⟨[hexagon], dotRadius, 101, false, fun _ => (0, 0, 0), id, id⟩

/-- A configuration with an empty dataset. -/
def cfgEmpty : Config := ⟨[], 10, 101, false, fun _ => (0, 0, 0), id, id⟩

/-- A state with `dataChanged` set. -/
def stDataDirty : LayerState :=
  ⟨true, false, [], [], none, 0, JSVal.num 0, none, none, none, none, none⟩

/-- A state with only `viewportChanged` set. -/
def stViewDirty : LayerState :=
  ⟨false, true, [], [], none, 0, JSVal.num 0, none, none, none, none, none⟩

/-- A state with neither flag set. -/
def stIdle : LayerState :=
  ⟨false, false, [], [], none, 0, JSVal.num 0, none, none, none, none, none⟩

end

/-! ## Buffer-fill helper lemmas -/

theorem length_writePosition (e : ℝ) (ps : List ℝ) (hexagon : HexagonItem) (i : Nat) :
    (writePosition e ps hexagon i).length = ps.length := by
  simp [writePosition]

theorem length_fillPositionsFrom (e : ℝ) (data : List HexagonItem) :
    ∀ (i : Nat) (ps : List ℝ), (fillPositionsFrom e data i ps).length = ps.length := by
  induction data with
  | nil => intro i ps; rfl
  | cons hexagon rest ih =>
    intro i ps
    rw [fillPositionsFrom, ih, length_writePosition]

theorem length_writeColor (cs : List ℝ) (hexagon : HexagonItem) (i : Nat) :
    (writeColor cs hexagon i).length = cs.length := by
  simp [writeColor]

theorem length_fillColorsFrom (data : List HexagonItem) :
    ∀ (i : Nat) (cs : List ℝ), (fillColorsFrom data i cs).length = cs.length := by
  induction data with
  | nil => intro i cs; rfl
  | cons hexagon rest ih =>
    intro i cs
    rw [fillColorsFrom, ih, length_writeColor]

theorem getElem?_fillPositionsFrom_of_lt (e : ℝ) (data : List HexagonItem) :
    ∀ (i : Nat) (ps : List ℝ) (idx : Nat), idx < i * 3 →
      (fillPositionsFrom e data i ps)[idx]? = ps[idx]? := by
  induction data with
  | nil => intro i ps idx _; rfl
  | cons hexagon rest ih =>
    intro i ps idx hidx
    rw [fillPositionsFrom, ih (i + 1) _ idx (by omega)]
    unfold writePosition
    rw [List.getElem?_set_ne (by omega), List.getElem?_set_ne (by omega),
      List.getElem?_set_ne (by omega)]

theorem getElem?_writePosition (e : ℝ) (ps : List ℝ) (hexagon : HexagonItem)
    (i : Nat) (hlen : i * 3 + 2 < ps.length) :
    (writePosition e ps hexagon i)[i * 3]? = some hexagon.centroid.1 ∧
    (writePosition e ps hexagon i)[i * 3 + 1]? = some hexagon.centroid.2 ∧
    (writePosition e ps hexagon i)[i * 3 + 2]? = some e := by
  unfold writePosition
  refine ⟨?_, ?_, ?_⟩
  · rw [List.getElem?_set_ne (by omega), List.getElem?_set_ne (by omega),
      List.getElem?_set_self (by omega)]
  · rw [List.getElem?_set_ne (by omega),
      List.getElem?_set_self (by simp only [List.length_set]; omega)]
  · rw [List.getElem?_set_self (by simp only [List.length_set]; omega)]

theorem getElem?_fillPositionsFrom (e : ℝ) (data : List HexagonItem) :
    ∀ (i j : Nat) (ps : List ℝ) (hj : j < data.length),
      (i + j) * 3 + 2 < ps.length →
      (fillPositionsFrom e data i ps)[(i + j) * 3]? =
          some (data.get ⟨j, hj⟩).centroid.1 ∧
      (fillPositionsFrom e data i ps)[(i + j) * 3 + 1]? =
          some (data.get ⟨j, hj⟩).centroid.2 ∧
      (fillPositionsFrom e data i ps)[(i + j) * 3 + 2]? = some e := by
  induction data with
  | nil => intro i j ps hj; exact absurd hj (by simp)
  | cons hexagon rest ih =>
    intro i j ps hj hlen
    match j with
    | 0 =>
      rw [fillPositionsFrom]
      have hw := getElem?_writePosition e ps hexagon i (by omega)
      refine ⟨?_, ?_, ?_⟩
      · rw [getElem?_fillPositionsFrom_of_lt e rest (i + 1) _ _ (by omega)]
        exact hw.1
      · rw [getElem?_fillPositionsFrom_of_lt e rest (i + 1) _ _ (by omega)]
        exact hw.2.1
      · rw [getElem?_fillPositionsFrom_of_lt e rest (i + 1) _ _ (by omega)]
        exact hw.2.2
    | j' + 1 =>
      rw [fillPositionsFrom]
      have hidx : i + (j' + 1) = (i + 1) + j' := by omega
      rw [hidx]
      exact ih (i + 1) j' _ (by simpa using hj)
        (by rw [length_writePosition]; omega)

theorem getElem?_fillColorsFrom_of_lt (data : List HexagonItem) :
    ∀ (i : Nat) (cs : List ℝ) (idx : Nat), idx < i * 3 →
      (fillColorsFrom data i cs)[idx]? = cs[idx]? := by
  induction data with
  | nil => intro i cs idx _; rfl
  | cons hexagon rest ih =>
    intro i cs idx hidx
    rw [fillColorsFrom, ih (i + 1) _ idx (by omega)]
    unfold writeColor
    rw [List.getElem?_set_ne (by omega), List.getElem?_set_ne (by omega),
      List.getElem?_set_ne (by omega)]

theorem getElem?_writeColor (cs : List ℝ) (hexagon : HexagonItem)
    (i : Nat) (hlen : i * 3 + 2 < cs.length) :
    (writeColor cs hexagon i)[i * 3]? = some hexagon.color.1 ∧
    (writeColor cs hexagon i)[i * 3 + 1]? = some hexagon.color.2.1 ∧
    (writeColor cs hexagon i)[i * 3 + 2]? = some hexagon.color.2.2 := by
  unfold writeColor
  refine ⟨?_, ?_, ?_⟩
  · rw [List.getElem?_set_ne (by omega), List.getElem?_set_ne (by omega),
      List.getElem?_set_self (by omega)]
  · rw [List.getElem?_set_ne (by omega),
      List.getElem?_set_self (by simp only [List.length_set]; omega)]
  · rw [List.getElem?_set_self (by simp only [List.length_set]; omega)]

theorem getElem?_fillColorsFrom (data : List HexagonItem) :
    ∀ (i j : Nat) (cs : List ℝ) (hj : j < data.length),
      (i + j) * 3 + 2 < cs.length →
      (fillColorsFrom data i cs)[(i + j) * 3]? = some (data.get ⟨j, hj⟩).color.1 ∧
      (fillColorsFrom data i cs)[(i + j) * 3 + 1]? =
          some (data.get ⟨j, hj⟩).color.2.1 ∧
      (fillColorsFrom data i cs)[(i + j) * 3 + 2]? =
          some (data.get ⟨j, hj⟩).color.2.2 := by
  induction data with
  | nil => intro i j cs hj; exact absurd hj (by simp)
  | cons hexagon rest ih =>
    intro i j cs hj hlen
    match j with
    | 0 =>
      rw [fillColorsFrom]
      have hw := getElem?_writeColor cs hexagon i (by omega)
      refine ⟨?_, ?_, ?_⟩
      · rw [getElem?_fillColorsFrom_of_lt rest (i + 1) _ _ (by omega)]
        exact hw.1
      · rw [getElem?_fillColorsFrom_of_lt rest (i + 1) _ _ (by omega)]
        exact hw.2.1
      · rw [getElem?_fillColorsFrom_of_lt rest (i + 1) _ _ (by omega)]
        exact hw.2.2
    | j' + 1 =>
      rw [fillColorsFrom]
      have hidx : i + (j' + 1) = (i + 1) + j' := by omega
      rw [hidx]
      exact ih (i + 1) j' _ (by simpa using hj)
        (by rw [length_writeColor]; omega)

theorem length_writePicking (c : ℝ × ℝ × ℝ) (ps : List ℝ) (i : Nat) :
    (writePicking c ps i).length = ps.length := by
  simp [writePicking]

theorem length_fillPickingFrom (f : Nat → ℝ × ℝ × ℝ) (data : List HexagonItem) :
    ∀ (i : Nat) (ps : List ℝ), (fillPickingFrom f data i ps).length = ps.length := by
  induction data with
  | nil => intro i ps; rfl
  | cons hexagon rest ih =>
    intro i ps
    rw [fillPickingFrom, ih, length_writePicking]

/-! ## State-field tracking lemmas -/

theorem fillAll_positions (cfg : Config) (s : LayerState) :
    (fillAll cfg s).positions =
      fillPositionsFrom cfg.elevation cfg.data 0
        (List.replicate (cfg.data.length * 3) 0) := by
  cases hp : cfg.isPickable <;>
    simp [fillAll, _calculatePickingColors, _calculateColors, _calculatePositions,
      _allocateGLBuffers, hp]

theorem fillAll_colors (cfg : Config) (s : LayerState) :
    (fillAll cfg s).colors =
      fillColorsFrom cfg.data 0 (List.replicate (cfg.data.length * 3) 0) := by
  cases hp : cfg.isPickable <;>
    simp [fillAll, _calculatePickingColors, _calculateColors, _calculatePositions,
      _allocateGLBuffers, hp]

theorem fillAll_pickingColors_pickable (cfg : Config) (s : LayerState)
    (hp : cfg.isPickable = true) :
    (fillAll cfg s).pickingColors =
      some (fillPickingFrom cfg.pickingColor cfg.data 0
        (List.replicate (cfg.data.length * 3) 0)) := by
  simp [fillAll, _calculatePickingColors, _calculateColors, _calculatePositions,
    _allocateGLBuffers, hp]

theorem fillAll_pickingColors_not_pickable (cfg : Config) (s : LayerState)
    (hp : cfg.isPickable = false) :
    (fillAll cfg s).pickingColors = s.pickingColors := by
  simp [fillAll, _calculatePickingColors, _calculateColors, _calculatePositions,
    _allocateGLBuffers, hp]

theorem fillAll_radius_angle (cfg : Config) (s : LayerState) :
    (fillAll cfg s).radius = s.radius ∧ (fillAll cfg s).angle = s.angle := by
  cases hp : cfg.isPickable <;>
    simp [fillAll, _calculatePickingColors, _calculateColors, _calculatePositions,
      _allocateGLBuffers, hp]

/-- A successful calibration leaves every field except `radius` and
`angle` unchanged. -/
theorem calib_preserves (cfg : Config) (s t : LayerState)
    (h : _calculateRadiusAndAngle cfg s = Except.ok t) :
    t.positions = s.positions ∧ t.colors = s.colors ∧
    t.pickingColors = s.pickingColors ∧ t.dataChanged = s.dataChanged ∧
    t.viewportChanged = s.viewportChanged ∧
    t.uniformRadius = s.uniformRadius ∧ t.uniformAngle = s.uniformAngle ∧
    t.attrPositions = s.attrPositions ∧ t.attrColors = s.attrColors ∧
    t.attrPickingColors = s.attrPickingColors := by
  unfold _calculateRadiusAndAngle at h
  split at h
  · cases h; simp
  · split at h
    · cases h; simp
    · cases h

/-- When the dataset is nonempty and item 0 supplies both reference
vertices, calibration succeeds and stores exactly the angle and radius
of the source formulas. -/
theorem calib_eq_of_vertices (cfg : Config) (s : LayerState)
    (hexagon : HexagonItem) (rest : List HexagonItem)
    (hdata : cfg.data = hexagon :: rest) (vertex0 vertex3 : ℝ × ℝ)
    (hv0 : hexagon.vertices[0]? = some vertex0)
    (hv3 : hexagon.vertices[3]? = some vertex3) :
    _calculateRadiusAndAngle cfg s =
      Except.ok { s with
        angle := angleOf cfg vertex0 vertex3,
        radius := radiusOf cfg vertex0 vertex3 } := by
  unfold _calculateRadiusAndAngle
  rw [hdata]
  simp [hv0, hv3]

/-- When item 0's `vertices` is shorter than 4, calibration throws a
`TypeError`. -/
theorem calib_error_of_short (cfg : Config) (s : LayerState)
    (hexagon : HexagonItem) (rest : List HexagonItem)
    (hdata : cfg.data = hexagon :: rest)
    (hshort : hexagon.vertices.length < 4) :
    _calculateRadiusAndAngle cfg s = Except.error JsError.typeError := by
  unfold _calculateRadiusAndAngle
  rw [hdata]
  have h3 : hexagon.vertices[3]? = none := by
    rw [List.getElem?_eq_none]
    omega
  rcases h0 : hexagon.vertices[0]? with _ | v0 <;> simp [h0, h3]

theorem publish_fields (cfg : Config) (t : LayerState) :
    (publish cfg t).uniformRadius = some t.radius ∧
    (publish cfg t).uniformAngle = some t.angle ∧
    (publish cfg t).attrPositions = some ⟨t.positions, 1, 3⟩ ∧
    (publish cfg t).attrColors = some ⟨t.colors, 1, 3⟩ ∧
    (cfg.isPickable = true →
      (publish cfg t).attrPickingColors = some ⟨t.pickingColors, 1, 3⟩) ∧
    (cfg.isPickable = false →
      (publish cfg t).attrPickingColors = t.attrPickingColors) ∧
    (publish cfg t).dataChanged = false ∧
    (publish cfg t).viewportChanged = false ∧
    (publish cfg t).radius = t.radius ∧ (publish cfg t).angle = t.angle ∧
    (publish cfg t).positions = t.positions ∧
    (publish cfg t).colors = t.colors ∧
    (publish cfg t).pickingColors = t.pickingColors := by
  cases hp : cfg.isPickable <;>
    simp [publish, updateAttributes, updateUniforms, hp]

/-- Helper: `updateLayer` unfolded into its three flag-dependent behaviors. -/
theorem updateLayer_eq (cfg : Config) (s : LayerState) :
    updateLayer cfg s =
      (if s.dataChanged then
        (_calculateRadiusAndAngle cfg (fillAll cfg s)).map (publish cfg)
      else if s.viewportChanged then
        (_calculateRadiusAndAngle cfg s).map (publish cfg)
      else Except.ok (publish cfg s)) := by
  cases hd : s.dataChanged <;> cases hv : s.viewportChanged
  · simp [updateLayer, hd, hv, publish]
  · rcases hcal : _calculateRadiusAndAngle cfg s with e | t <;>
      simp [updateLayer, hd, hv, publish, hcal, Except.map]
  · rcases hcal : _calculateRadiusAndAngle cfg
        (_calculatePickingColors cfg
          (_calculateColors cfg (_calculatePositions cfg (_allocateGLBuffers cfg s))))
        with e | t <;>
      simp [updateLayer, hd, hv, publish, fillAll, hcal, Except.map]
  · rcases hcal : _calculateRadiusAndAngle cfg
        (_calculatePickingColors cfg
          (_calculateColors cfg (_calculatePositions cfg (_allocateGLBuffers cfg s))))
        with e | t <;>
      simp [updateLayer, hd, hv, publish, fillAll, hcal, Except.map]

theorem publish_publish (cfg : Config) (t : LayerState) :
    publish cfg (publish cfg t) = publish cfg t := by
  cases hp : cfg.isPickable <;>
    simp [publish, updateAttributes, updateUniforms, hp]

theorem updateLayer_publish_fixed (cfg : Config) (t : LayerState) :
    updateLayer cfg (publish cfg t) = Except.ok (publish cfg t) := by
  rw [updateLayer_eq]
  have h7 := (publish_fields cfg t).2.2.2.2.2.2.1
  have h8 := (publish_fields cfg t).2.2.2.2.2.2.2.1
  simp [h7, h8, publish_publish]

/-! ## Claim theorems: the update scheduler -/

/-- C2 (amended): if `dataChanged` is set, `updateLayer` runs allocate and
fill and then runs calibrate regardless of `viewportChanged`; if only
`viewportChanged` is set, allocate and fill are skipped and only calibrate
runs; if neither flag is set, nothing is recomputed; and whenever the pass
completes (calibration did not throw) it ends by publishing the current
radius and angle as uniforms and the current buffers as attributes and
clearing both flags; calibration itself never touches the buffers. -/
theorem updateLayer_scheduler (cfg : Config) (s : LayerState) :
    (s.dataChanged = true →
      updateLayer cfg s =
        (_calculateRadiusAndAngle cfg (fillAll cfg s)).map (publish cfg)) ∧
    (s.dataChanged = false → s.viewportChanged = true →
      updateLayer cfg s = (_calculateRadiusAndAngle cfg s).map (publish cfg)) ∧
    (s.dataChanged = false → s.viewportChanged = false →
      updateLayer cfg s = Except.ok (publish cfg s)) ∧
    (∀ t u, _calculateRadiusAndAngle cfg t = Except.ok u →
      u.positions = t.positions ∧ u.colors = t.colors ∧
      u.pickingColors = t.pickingColors) ∧
    (∀ t, (publish cfg t).uniformRadius = some t.radius ∧
      (publish cfg t).uniformAngle = some t.angle ∧
      (publish cfg t).attrPositions = some ⟨t.positions, 1, 3⟩ ∧
      (publish cfg t).attrColors = some ⟨t.colors, 1, 3⟩ ∧
      (publish cfg t).dataChanged = false ∧
      (publish cfg t).viewportChanged = false) := by
  refine ⟨?_, ?_, ?_, ?_, ?_⟩
  · intro hd
    rw [updateLayer_eq]
    simp [hd]
  · intro hd hv
    rw [updateLayer_eq]
    simp [hd, hv]
  · intro hd hv
    rw [updateLayer_eq]
    simp [hd, hv]
  · intro t u h
    have hp := calib_preserves cfg t u h
    exact ⟨hp.1, hp.2.1, hp.2.2.1⟩
  · intro t
    have hp := publish_fields cfg t
    exact ⟨hp.1, hp.2.1, hp.2.2.1, hp.2.2.2.1, hp.2.2.2.2.2.2.1,
      hp.2.2.2.2.2.2.2.1⟩

/-- C2 witness: a concrete update call with `dataChanged` set, run through
the first branch of the scheduler theorem. -/
theorem updateLayer_scheduler_witness :
    updateLayer cfgEmpty stDataDirty =
      (_calculateRadiusAndAngle cfgEmpty (fillAll cfgEmpty stDataDirty)).map
        (publish cfgEmpty) :=
  (updateLayer_scheduler cfgEmpty stDataDirty).1 rfl

/-- C7: a successful update clears both dirty flags, and re-invoking
`updateLayer` on the resulting state is a pure republish: it succeeds and
returns the state bit-for-bit unchanged (so all published uniforms and
attributes are identical and both flags stay `false`). -/
theorem updateLayer_idempotent (cfg : Config) (s s1 : LayerState)
    (h : updateLayer cfg s = Except.ok s1) :
    s1.dataChanged = false ∧ s1.viewportChanged = false ∧
    updateLayer cfg s1 = Except.ok s1 := by
  have key : ∀ t, s1 = publish cfg t →
      s1.dataChanged = false ∧ s1.viewportChanged = false ∧
      updateLayer cfg s1 = Except.ok s1 := by
    intro t ht
    subst ht
    exact ⟨(publish_fields cfg t).2.2.2.2.2.2.1,
      (publish_fields cfg t).2.2.2.2.2.2.2.1, updateLayer_publish_fixed cfg t⟩
  rw [updateLayer_eq] at h
  split at h
  · rcases hcal : _calculateRadiusAndAngle cfg (fillAll cfg s) with e | t <;>
      rw [hcal] at h <;> simp only [Except.map] at h
    · cases h
    · exact key t (by cases h; rfl)
  · split at h
    · rcases hcal : _calculateRadiusAndAngle cfg s with e | t <;>
        rw [hcal] at h <;> simp only [Except.map] at h
      · cases h
      · exact key t (by cases h; rfl)
    · exact key s (by cases h; rfl)

/-- C7 witness: a concrete successful update (no flags set, empty data),
fed back through the idempotence theorem. -/
theorem updateLayer_idempotent_witness :
    (publish cfgEmpty stIdle).dataChanged = false ∧
    (publish cfgEmpty stIdle).viewportChanged = false ∧
    updateLayer cfgEmpty (publish cfgEmpty stIdle) =
      Except.ok (publish cfgEmpty stIdle) :=
  updateLayer_idempotent cfgEmpty stIdle (publish cfgEmpty stIdle)
    (by rw [updateLayer_eq,
      if_neg (show ¬stIdle.dataChanged = true by simp [stIdle]),
      if_neg (show ¬stIdle.viewportChanged = true by simp [stIdle])])

/-- C2 counterexample: a concrete update call (`dataChanged` set, item 0
has only 2 vertices) on which the pass aborts with a `TypeError`, so the
terminal publish-and-clear step never runs — refuting "in every case the
pass ends by publishing … and then clearing both flags". -/
theorem updateLayer_throw_skips_terminal_step :
    updateLayer (cfgWith shortVerticesItem 10) stDataDirty =
      Except.error JsError.typeError := by
  rw [updateLayer_eq]
  rw [if_pos (show stDataDirty.dataChanged = true from rfl)]
  rw [calib_error_of_short (cfgWith shortVerticesItem 10) _ shortVerticesItem []
    rfl (by simp [shortVerticesItem])]
  rfl

/-! ## Claim theorems: the instance-buffer builder -/

/-- C3: after allocate and fill, for every item index `i`,
`positions[3i]` and `positions[3i+1]` are the item's centroid coordinates,
`positions[3i+2]` is the layer's elevation constant, and
`colors[3i..3i+2]` are the item's three color channels verbatim. -/
theorem fill_positions_colors_exact (cfg : Config) (s : LayerState) (i : Nat)
    (hi : i < cfg.data.length) :
    (fillAll cfg s).positions[3 * i]? = some (cfg.data.get ⟨i, hi⟩).centroid.1 ∧
    (fillAll cfg s).positions[3 * i + 1]? =
      some (cfg.data.get ⟨i, hi⟩).centroid.2 ∧
    (fillAll cfg s).positions[3 * i + 2]? = some cfg.elevation ∧
    (fillAll cfg s).colors[3 * i]? = some (cfg.data.get ⟨i, hi⟩).color.1 ∧
    (fillAll cfg s).colors[3 * i + 1]? = some (cfg.data.get ⟨i, hi⟩).color.2.1 ∧
    (fillAll cfg s).colors[3 * i + 2]? = some (cfg.data.get ⟨i, hi⟩).color.2.2 := by
  have hp := getElem?_fillPositionsFrom cfg.elevation cfg.data 0 i
    (List.replicate (cfg.data.length * 3) 0) hi
    (by simp only [List.length_replicate]; omega)
  have hc := getElem?_fillColorsFrom cfg.data 0 i
    (List.replicate (cfg.data.length * 3) 0) hi
    (by simp only [List.length_replicate]; omega)
  rw [fillAll_positions, fillAll_colors]
  have h30 : 3 * i = (0 + i) * 3 := by ring
  rw [h30]
  exact ⟨hp.1, hp.2.1, hp.2.2, hc.1, hc.2.1, hc.2.2⟩

/-- C3 witness: one item with centroid `(1, 2)`, color `(10, 20, 30)` and
elevation 101 fills `positions[0..2] = 1, 2, 101` and
`colors[0..2] = 10, 20, 30`. -/
theorem fill_positions_colors_exact_witness :
    0 < (cfgWith plainItem 10).data.length ∧
    ((fillAll (cfgWith plainItem 10) stIdle).positions[0]? = some 1 ∧
      (fillAll (cfgWith plainItem 10) stIdle).positions[1]? = some 2 ∧
      (fillAll (cfgWith plainItem 10) stIdle).positions[2]? = some 101 ∧
      (fillAll (cfgWith plainItem 10) stIdle).colors[0]? = some 10 ∧
      (fillAll (cfgWith plainItem 10) stIdle).colors[1]? = some 20 ∧
      (fillAll (cfgWith plainItem 10) stIdle).colors[2]? = some 30) := by
  refine ⟨by simp [cfgWith], ?_⟩
  have h := fill_positions_colors_exact (cfgWith plainItem 10) stIdle 0
    (by simp [cfgWith])
  simpa [cfgWith, plainItem] using h

/-- C8: after allocate and fill, the position and color buffers both have
length exactly `3N` (freshly allocated, so nothing of a larger previous
dataset survives), and the picking buffer is present iff the layer is
pickable — genuinely absent otherwise (given the construction invariant
that a non-pickable layer starts with no picking buffer). -/
theorem buffer_length_and_picking_presence (cfg : Config) (s : LayerState)
    (hpick : cfg.isPickable = false → s.pickingColors = none) :
    (fillAll cfg s).positions.length = 3 * cfg.data.length ∧
    (fillAll cfg s).colors.length = 3 * cfg.data.length ∧
    ((fillAll cfg s).pickingColors.isSome = true ↔ cfg.isPickable = true) := by
  refine ⟨?_, ?_, ?_⟩
  · rw [fillAll_positions, length_fillPositionsFrom, List.length_replicate]
    ring
  · rw [fillAll_colors, length_fillColorsFrom, List.length_replicate]
    ring
  · cases hp : cfg.isPickable
    · rw [fillAll_pickingColors_not_pickable cfg s hp, hpick hp]
      simp
    · rw [fillAll_pickingColors_pickable cfg s hp]
      simp

/-- C8 witness: a non-pickable layer over a 1-item dataset gets buffers of
length 3 and no picking buffer. -/
theorem buffer_length_and_picking_presence_witness :
    ((cfgWith plainItem 10).isPickable = false → stIdle.pickingColors = none) ∧
    ((fillAll (cfgWith plainItem 10) stIdle).positions.length =
        3 * (cfgWith plainItem 10).data.length ∧
      (fillAll (cfgWith plainItem 10) stIdle).colors.length =
        3 * (cfgWith plainItem 10).data.length ∧
      ((fillAll (cfgWith plainItem 10) stIdle).pickingColors.isSome = true ↔
        (cfgWith plainItem 10).isPickable = true)) :=
  ⟨fun _ => rfl,
    buffer_length_and_picking_presence (cfgWith plainItem 10) stIdle
      (fun _ => rfl)⟩

/-- C6: on an empty dataset, allocation yields zero-length buffers, the
fill loops are no-ops, calibration returns with the state untouched (the
prior radius and angle are retained), and the whole update pass succeeds
without touching radius or angle. -/
theorem empty_dataset_noop (cfg : Config) (s : LayerState)
    (hdata : cfg.data = []) :
    (_allocateGLBuffers cfg s).positions = [] ∧
    (_allocateGLBuffers cfg s).colors = [] ∧
    _calculatePositions cfg s = s ∧
    _calculateColors cfg s = s ∧
    _calculateRadiusAndAngle cfg s = Except.ok s ∧
    ∃ s', updateLayer cfg s = Except.ok s' ∧
      s'.radius = s.radius ∧ s'.angle = s.angle := by
  have hcal : ∀ t : LayerState, _calculateRadiusAndAngle cfg t = Except.ok t := by
    intro t
    unfold _calculateRadiusAndAngle
    rw [hdata]
  refine ⟨?_, ?_, ?_, ?_, hcal s, ?_⟩
  · cases hp : cfg.isPickable <;> simp [_allocateGLBuffers, hdata, hp]
  · cases hp : cfg.isPickable <;> simp [_allocateGLBuffers, hdata, hp]
  · show { s with
        positions := fillPositionsFrom cfg.elevation cfg.data 0 s.positions } = s
    rw [hdata]
    rfl
  · show { s with colors := fillColorsFrom cfg.data 0 s.colors } = s
    rw [hdata]
    rfl
  · rw [updateLayer_eq]
    cases hd : s.dataChanged
    · cases hv : s.viewportChanged
      · rw [if_neg (by simp), if_neg (by simp)]
        exact ⟨publish cfg s, rfl, (publish_fields cfg s).2.2.2.2.2.2.2.2.1,
          (publish_fields cfg s).2.2.2.2.2.2.2.2.2.1⟩
      · rw [if_neg (by simp), if_pos rfl, hcal s]
        exact ⟨publish cfg s, rfl, (publish_fields cfg s).2.2.2.2.2.2.2.2.1,
          (publish_fields cfg s).2.2.2.2.2.2.2.2.2.1⟩
    · rw [if_pos rfl, hcal (fillAll cfg s)]
      refine ⟨publish cfg (fillAll cfg s), rfl, ?_, ?_⟩
      · rw [(publish_fields cfg (fillAll cfg s)).2.2.2.2.2.2.2.2.1,
          (fillAll_radius_angle cfg s).1]
      · rw [(publish_fields cfg (fillAll cfg s)).2.2.2.2.2.2.2.2.2.1,
          (fillAll_radius_angle cfg s).2]

/-- C6 witness: a concrete empty-dataset update with `dataChanged` set. -/
theorem empty_dataset_noop_witness :
    cfgEmpty.data = [] ∧
    ((_allocateGLBuffers cfgEmpty stDataDirty).positions = [] ∧
      (_allocateGLBuffers cfgEmpty stDataDirty).colors = [] ∧
      _calculatePositions cfgEmpty stDataDirty = stDataDirty ∧
      _calculateColors cfgEmpty stDataDirty = stDataDirty ∧
      _calculateRadiusAndAngle cfgEmpty stDataDirty = Except.ok stDataDirty ∧
      ∃ s', updateLayer cfgEmpty stDataDirty = Except.ok s' ∧
        s'.radius = stDataDirty.radius ∧ s'.angle = stDataDirty.angle) :=
  ⟨rfl, empty_dataset_noop cfgEmpty stDataDirty rfl⟩

/-- C5 (amended): a `vertices` list shorter than 4 entries on item 0 is
not validated at construction or at the update entry point; instead,
whenever a recompute runs (either dirty flag set), the update pass fails
mid-pipeline inside calibration with a `TypeError`. -/
theorem short_vertices_fail_mid_pipeline (cfg : Config) (s : LayerState)
    (hexagon : HexagonItem) (rest : List HexagonItem)
    (hdata : cfg.data = hexagon :: rest)
    (hshort : hexagon.vertices.length < 4)
    (hflag : s.dataChanged = true ∨ s.viewportChanged = true) :
    updateLayer cfg s = Except.error JsError.typeError := by
  rw [updateLayer_eq]
  rcases hflag with hd | hv
  · rw [if_pos hd, calib_error_of_short cfg _ hexagon rest hdata hshort]
    rfl
  · cases hd : s.dataChanged
    · rw [if_neg (by simp), if_pos hv,
        calib_error_of_short cfg s hexagon rest hdata hshort]
      rfl
    · rw [if_pos rfl, calib_error_of_short cfg _ hexagon rest hdata hshort]
      rfl

/-- C5 witness: a 3-vertex item with `viewportChanged` set makes the
update pass throw. -/
theorem short_vertices_fail_mid_pipeline_witness :
    (cfgWith threeVerticesItem 10).data = [threeVerticesItem] ∧
    threeVerticesItem.vertices.length < 4 ∧
    (stViewDirty.dataChanged = true ∨ stViewDirty.viewportChanged = true) ∧
    updateLayer (cfgWith threeVerticesItem 10) stViewDirty =
      Except.error JsError.typeError :=
  ⟨rfl, by simp [threeVerticesItem], Or.inr rfl,
    short_vertices_fail_mid_pipeline (cfgWith threeVerticesItem 10) stViewDirty
      threeVerticesItem [] rfl (by simp [threeVerticesItem]) (Or.inr rfl)⟩

/-- C5 counterexample: the malformed dataset is not surfaced as an invalid
input at the boundary — an update call that needs no recompute accepts it
and completes successfully — while calibration itself (mid-pipeline)
throws a `TypeError` on the very same dataset. -/
theorem short_vertices_no_boundary_check :
    (∃ t, updateLayer (cfgWith shortVerticesItem 10) stIdle = Except.ok t) ∧
    _calculateRadiusAndAngle (cfgWith shortVerticesItem 10) stViewDirty =
      Except.error JsError.typeError := by
  constructor
  · refine ⟨publish (cfgWith shortVerticesItem 10) stIdle, ?_⟩
    rw [updateLayer_eq, if_neg (show ¬stIdle.dataChanged = true by simp [stIdle]),
      if_neg (show ¬stIdle.viewportChanged = true by simp [stIdle])]
  · exact calib_error_of_short (cfgWith shortVerticesItem 10) stViewDirty
      shortVerticesItem [] rfl (by simp [shortVerticesItem])

/-! ## Calibration math helper lemmas -/

theorem jsSign_zero : jsSign 0 = 0 := by
  unfold jsSign
  rw [if_neg (lt_irrefl 0), if_neg (lt_irrefl 0)]

theorem jsSign_of_pos {x : ℝ} (h : 0 < x) : jsSign x = 1 := by
  unfold jsSign
  rw [if_pos h]

theorem jsSign_of_neg {x : ℝ} (h : x < 0) : jsSign x = -1 := by
  unfold jsSign
  rw [if_neg (not_lt.mpr h.le), if_pos h]

theorem dxyOf_nonneg (cfg : Config) (vertex0 vertex3 : ℝ × ℝ) :
    0 ≤ dxyOf cfg vertex0 vertex3 := by
  unfold dxyOf
  exact Real.sqrt_nonneg _

theorem dxyOf_pos (cfg : Config) (vertex0 vertex3 : ℝ × ℝ)
    (hne : dxOf cfg vertex0 vertex3 ≠ 0 ∨ dyOf cfg vertex0 vertex3 ≠ 0) :
    0 < dxyOf cfg vertex0 vertex3 := by
  unfold dxyOf
  apply Real.sqrt_pos.mpr
  rcases hne with h | h
  · exact add_pos_of_pos_of_nonneg (mul_self_pos.mpr h) (mul_self_nonneg _)
  · exact add_pos_of_nonneg_of_pos (mul_self_nonneg _) (mul_self_pos.mpr h)

theorem abs_dx_le_dxyOf (cfg : Config) (vertex0 vertex3 : ℝ × ℝ) :
    |dxOf cfg vertex0 vertex3| ≤ dxyOf cfg vertex0 vertex3 := by
  rw [← Real.sqrt_mul_self_eq_abs]
  unfold dxyOf
  exact Real.sqrt_le_sqrt (le_add_of_nonneg_right (mul_self_nonneg _))

theorem abs_dx_lt_dxyOf (cfg : Config) (vertex0 vertex3 : ℝ × ℝ)
    (hdy : dyOf cfg vertex0 vertex3 ≠ 0) :
    |dxOf cfg vertex0 vertex3| < dxyOf cfg vertex0 vertex3 := by
  rw [← Real.sqrt_mul_self_eq_abs]
  unfold dxyOf
  exact Real.sqrt_lt_sqrt (mul_self_nonneg _)
    (lt_add_of_pos_right _ (mul_self_pos.mpr hdy))

/-- With distinct projected points (`dxy ≠ 0`), the angle formula stays
inside the finite numbers: it is the real
`acos(dx / dxy) * -sign(dy)`. -/
theorem angleOf_eq_num (cfg : Config) (vertex0 vertex3 : ℝ × ℝ)
    (hne : dxOf cfg vertex0 vertex3 ≠ 0 ∨ dyOf cfg vertex0 vertex3 ≠ 0) :
    angleOf cfg vertex0 vertex3 =
      JSVal.num (Real.arccos (dxOf cfg vertex0 vertex3 / dxyOf cfg vertex0 vertex3) *
        -jsSign (dyOf cfg vertex0 vertex3)) := by
  have hpos := dxyOf_pos cfg vertex0 vertex3 hne
  have habs : |dxOf cfg vertex0 vertex3 / dxyOf cfg vertex0 vertex3| ≤ 1 := by
    rw [abs_div, abs_of_pos hpos]
    exact (div_le_one hpos).mpr (abs_dx_le_dxyOf cfg vertex0 vertex3)
  obtain ⟨h1, h2⟩ := abs_le.mp habs
  have hdivStep : jsDiv (dxOf cfg vertex0 vertex3) (dxyOf cfg vertex0 vertex3) =
      JSVal.num (dxOf cfg vertex0 vertex3 / dxyOf cfg vertex0 vertex3) := by
    unfold jsDiv
    rw [if_neg hpos.ne']
  have hacosStep :
      jsAcos (JSVal.num (dxOf cfg vertex0 vertex3 / dxyOf cfg vertex0 vertex3)) =
        JSVal.num (Real.arccos
          (dxOf cfg vertex0 vertex3 / dxyOf cfg vertex0 vertex3)) := by
    simp only [jsAcos]
    rw [if_neg (not_or.mpr ⟨not_lt.mpr h1, not_lt.mpr h2⟩)]
  unfold angleOf
  rw [hdivStep, hacosStep]
  rfl

/-- With distinct projected points, the stored angle is a real number in
`(-π, π]`. -/
theorem angleOf_bounds (cfg : Config) (vertex0 vertex3 : ℝ × ℝ)
    (hne : dxOf cfg vertex0 vertex3 ≠ 0 ∨ dyOf cfg vertex0 vertex3 ≠ 0) :
    ∃ a, angleOf cfg vertex0 vertex3 = JSVal.num a ∧
      -Real.pi < a ∧ a ≤ Real.pi := by
  rcases lt_trichotomy (dyOf cfg vertex0 vertex3) 0 with hy | hy | hy
  · rw [angleOf_eq_num cfg vertex0 vertex3 hne, jsSign_of_neg hy]
    refine ⟨_, rfl, ?_, ?_⟩
    · rw [neg_neg, mul_one]
      exact lt_of_lt_of_le (neg_lt_zero.mpr Real.pi_pos) (Real.arccos_nonneg _)
    · rw [neg_neg, mul_one]
      exact Real.arccos_le_pi _
  · rw [angleOf_eq_num cfg vertex0 vertex3 hne, hy, jsSign_zero]
    refine ⟨_, rfl, ?_, ?_⟩
    · rw [neg_zero, mul_zero]
      exact neg_lt_zero.mpr Real.pi_pos
    · rw [neg_zero, mul_zero]
      exact Real.pi_pos.le
  · rw [angleOf_eq_num cfg vertex0 vertex3 hne, jsSign_of_pos hy]
    have hpos := dxyOf_pos cfg vertex0 vertex3 hne
    have hlt : -1 < dxOf cfg vertex0 vertex3 / dxyOf cfg vertex0 vertex3 := by
      have hstrict := abs_dx_lt_dxyOf cfg vertex0 vertex3 (ne_of_gt hy)
      have habs : |dxOf cfg vertex0 vertex3 / dxyOf cfg vertex0 vertex3| < 1 := by
        rw [abs_div, abs_of_pos hpos]
        exact (div_lt_one hpos).mpr hstrict
      exact (abs_lt.mp habs).1
    refine ⟨_, rfl, ?_, ?_⟩
    · rw [mul_neg_one, neg_lt_neg_iff]
      exact lt_of_le_of_ne (Real.arccos_le_pi _)
        (fun hcontra => absurd (Real.arccos_eq_pi.mp hcontra) (not_le.mpr hlt))
    · rw [mul_neg_one]
      exact le_trans (neg_nonpos.mpr (Real.arccos_nonneg _)) Real.pi_pos.le

theorem radiusOf_nonneg (cfg : Config) (vertex0 vertex3 : ℝ × ℝ)
    (hdot : 0 ≤ cfg.dotRadius) : 0 ≤ radiusOf cfg vertex0 vertex3 := by
  unfold radiusOf
  exact mul_nonneg (div_nonneg (dxyOf_nonneg cfg vertex0 vertex3) (by norm_num))
    (le_min zero_le_one hdot)

/-! ## Concrete evaluations on the fixtures -/

theorem dxOf_square (r : ℝ) : dxOf (cfgWith squareItem r) (0, 0) (1, 0) = -1 := by
  simp [dxOf, screenCoordOf, cfgWith]

theorem dyOf_square (r : ℝ) : dyOf (cfgWith squareItem r) (0, 0) (1, 0) = 0 := by
  simp [dyOf, screenCoordOf, cfgWith]

theorem dxyOf_square (r : ℝ) : dxyOf (cfgWith squareItem r) (0, 0) (1, 0) = 1 := by
  unfold dxyOf
  rw [dxOf_square, dyOf_square]
  norm_num

theorem dxOf_coincident (r : ℝ) :
    dxOf (cfgWith coincidentItem r) (1, 2) (1, 2) = 0 := by
  simp [dxOf, screenCoordOf, cfgWith]

theorem dyOf_coincident (r : ℝ) :
    dyOf (cfgWith coincidentItem r) (1, 2) (1, 2) = 0 := by
  simp [dyOf, screenCoordOf, cfgWith]

theorem dxyOf_coincident (r : ℝ) :
    dxyOf (cfgWith coincidentItem r) (1, 2) (1, 2) = 0 := by
  unfold dxyOf
  rw [dxOf_coincident, dyOf_coincident]
  norm_num

/-- On coincident projected reference points the angle formula evaluates
to `NaN`: `acos(0 / 0) * -sign(0) = acos(NaN) * -0 = NaN`. -/
theorem angleOf_coincident (r : ℝ) :
    angleOf (cfgWith coincidentItem r) (1, 2) (1, 2) = JSVal.nan := by
  unfold angleOf
  rw [dxOf_coincident, dyOf_coincident, dxyOf_coincident]
  have hdiv : jsDiv 0 0 = JSVal.nan := by
    unfold jsDiv
    rw [if_pos rfl, if_pos rfl]
  rw [hdiv]
  rfl

theorem radiusOf_coincident (r : ℝ) :
    radiusOf (cfgWith coincidentItem r) (1, 2) (1, 2) = 0 := by
  unfold radiusOf
  rw [dxyOf_coincident]
  norm_num

/-! ## Claim theorems: the screen-space calibrator -/

/-- C4: the computed radius is exactly `(dxy / 2) * min(1, dotRadius)`; it
is monotone in `dotRadius` below 1, and constant (equal to `dxy / 2`) for
`dotRadius > 1`, so the caller can shrink but never enlarge the hexagon
beyond the screen-space pitch. -/
theorem radius_formula_and_monotone (cfg : Config) (s : LayerState)
    (hexagon : HexagonItem) (rest : List HexagonItem)
    (hdata : cfg.data = hexagon :: rest) (vertex0 vertex3 : ℝ × ℝ)
    (hv0 : hexagon.vertices[0]? = some vertex0)
    (hv3 : hexagon.vertices[3]? = some vertex3) :
    ∃ t, _calculateRadiusAndAngle cfg s = Except.ok t ∧
      t.radius = dxyOf cfg vertex0 vertex3 / 2 * min 1 cfg.dotRadius ∧
      (∀ r' t', cfg.dotRadius ≤ r' → r' ≤ 1 →
        _calculateRadiusAndAngle { cfg with dotRadius := r' } s = Except.ok t' →
        t.radius ≤ t'.radius) ∧
      (1 < cfg.dotRadius →
        t.radius = dxyOf cfg vertex0 vertex3 / 2) := by
  refine ⟨_, calib_eq_of_vertices cfg s hexagon rest hdata vertex0 vertex3 hv0 hv3,
    rfl, ?_, ?_⟩
  · intro r' t' hr hr1 ht'
    have hcal' := calib_eq_of_vertices { cfg with dotRadius := r' } s hexagon rest
      hdata vertex0 vertex3 hv0 hv3
    have ht'eq := Except.ok.inj (ht'.symm.trans hcal')
    rw [ht'eq]
    show radiusOf cfg vertex0 vertex3 ≤
      radiusOf { cfg with dotRadius := r' } vertex0 vertex3
    unfold radiusOf
    exact mul_le_mul_of_nonneg_left (min_le_min (le_refl 1) hr)
      (div_nonneg (dxyOf_nonneg cfg vertex0 vertex3) (by norm_num))
  · intro h1
    show radiusOf cfg vertex0 vertex3 = dxyOf cfg vertex0 vertex3 / 2
    unfold radiusOf
    rw [min_eq_left h1.le, mul_one]

/-- C4 witness: the unit-square reference item under identity projections,
with `dotRadius = 10`. -/
theorem radius_formula_and_monotone_witness :
    (cfgWith squareItem 10).data = [squareItem] ∧
    squareItem.vertices[0]? = some (0, 0) ∧
    squareItem.vertices[3]? = some (1, 0) ∧
    (∃ t, _calculateRadiusAndAngle (cfgWith squareItem 10) stViewDirty =
        Except.ok t ∧
      t.radius = dxyOf (cfgWith squareItem 10) (0, 0) (1, 0) / 2 *
        min 1 (cfgWith squareItem 10).dotRadius ∧
      (∀ r' t', (cfgWith squareItem 10).dotRadius ≤ r' → r' ≤ 1 →
        _calculateRadiusAndAngle { cfgWith squareItem 10 with dotRadius := r' }
          stViewDirty = Except.ok t' →
        t.radius ≤ t'.radius) ∧
      (1 < (cfgWith squareItem 10).dotRadius →
        t.radius = dxyOf (cfgWith squareItem 10) (0, 0) (1, 0) / 2)) :=
  ⟨rfl, by simp [squareItem], by simp [squareItem],
    radius_formula_and_monotone (cfgWith squareItem 10) stViewDirty squareItem []
      rfl (0, 0) (1, 0) (by simp [squareItem]) (by simp [squareItem])⟩

/-- C9 counterexample: with a negative user scale (`dotRadius = -1`) the
computed radius is `-1/2 < 0`, and with coincident projected reference
points the computed angle is `NaN` — both refuting "radius ≥ 0 and
angle ∈ (-π, π] after every calibration". -/
theorem calibration_invariants_fail :
    ((_calculateRadiusAndAngle (cfgWith squareItem (-1)) stViewDirty).map
        LayerState.radius = Except.ok (-(1 / 2) : ℝ)) ∧
    ((_calculateRadiusAndAngle (cfgWith coincidentItem 10) stViewDirty).map
        LayerState.angle = Except.ok JSVal.nan) := by
  constructor
  · rw [calib_eq_of_vertices (cfgWith squareItem (-1)) stViewDirty squareItem []
      rfl (0, 0) (1, 0) (by simp [squareItem]) (by simp [squareItem])]
    have hr : radiusOf (cfgWith squareItem (-1)) (0, 0) (1, 0) = -(1 / 2) := by
      unfold radiusOf
      rw [dxyOf_square]
      norm_num [cfgWith, min_eq_right (show (-1 : ℝ) ≤ 1 by norm_num)]
    exact congrArg Except.ok hr
  · rw [calib_eq_of_vertices (cfgWith coincidentItem 10) stViewDirty
      coincidentItem [] rfl (1, 2) (1, 2) (by simp [coincidentItem])
      (by simp [coincidentItem])]
    exact congrArg Except.ok (angleOf_coincident 10)

/-- C9 (amended): after every calibration that actually recomputes
(nonempty dataset, both reference vertices present) with a nonnegative
`dotRadius` and distinct projected reference points, the stored radius is
nonnegative and the stored angle is a real number in `(-π, π]`. -/
theorem calibration_result_invariants (cfg : Config) (s : LayerState)
    (hexagon : HexagonItem) (rest : List HexagonItem)
    (hdata : cfg.data = hexagon :: rest) (vertex0 vertex3 : ℝ × ℝ)
    (hv0 : hexagon.vertices[0]? = some vertex0)
    (hv3 : hexagon.vertices[3]? = some vertex3)
    (hdot : 0 ≤ cfg.dotRadius)
    (hne : dxOf cfg vertex0 vertex3 ≠ 0 ∨ dyOf cfg vertex0 vertex3 ≠ 0) :
    ∃ t, _calculateRadiusAndAngle cfg s = Except.ok t ∧ 0 ≤ t.radius ∧
      ∃ a, t.angle = JSVal.num a ∧ -Real.pi < a ∧ a ≤ Real.pi :=
  ⟨{ s with
      angle := angleOf cfg vertex0 vertex3,
      radius := radiusOf cfg vertex0 vertex3 },
    calib_eq_of_vertices cfg s hexagon rest hdata vertex0 vertex3 hv0 hv3,
    radiusOf_nonneg cfg vertex0 vertex3 hdot,
    angleOf_bounds cfg vertex0 vertex3 hne⟩

/-- C9 witness: the unit-square reference item with `dotRadius = 10`. -/
theorem calibration_result_invariants_witness :
    0 ≤ (cfgWith squareItem 10).dotRadius ∧
    (dxOf (cfgWith squareItem 10) (0, 0) (1, 0) ≠ 0 ∨
      dyOf (cfgWith squareItem 10) (0, 0) (1, 0) ≠ 0) ∧
    (∃ t, _calculateRadiusAndAngle (cfgWith squareItem 10) stIdle = Except.ok t ∧
      0 ≤ t.radius ∧
      ∃ a, t.angle = JSVal.num a ∧ -Real.pi < a ∧ a ≤ Real.pi) :=
  ⟨by norm_num [cfgWith], Or.inl (by rw [dxOf_square]; norm_num),
    calibration_result_invariants (cfgWith squareItem 10) stIdle squareItem [] rfl
      (0, 0) (1, 0) (by simp [squareItem]) (by simp [squareItem])
      (by norm_num [cfgWith]) (Or.inl (by rw [dxOf_square]; norm_num))⟩

/-- C10: when the projected vertical displacement `dy` is zero while `dx`
is nonzero, the computed angle is exactly 0 — for `dx > 0` and `dx < 0`
alike — because `sign(0) = 0` collapses the `acos` term. -/
theorem angle_zero_when_dy_zero (cfg : Config) (s : LayerState)
    (hexagon : HexagonItem) (rest : List HexagonItem)
    (hdata : cfg.data = hexagon :: rest) (vertex0 vertex3 : ℝ × ℝ)
    (hv0 : hexagon.vertices[0]? = some vertex0)
    (hv3 : hexagon.vertices[3]? = some vertex3)
    (hdy : dyOf cfg vertex0 vertex3 = 0)
    (hdx : dxOf cfg vertex0 vertex3 ≠ 0) :
    ∃ t, _calculateRadiusAndAngle cfg s = Except.ok t ∧
      t.angle = JSVal.num 0 := by
  refine ⟨_, calib_eq_of_vertices cfg s hexagon rest hdata vertex0 vertex3 hv0 hv3,
    ?_⟩
  show angleOf cfg vertex0 vertex3 = JSVal.num 0
  rw [angleOf_eq_num cfg vertex0 vertex3 (Or.inl hdx), hdy, jsSign_zero, neg_zero,
    mul_zero]

/-- C10 witness: the unit-square reference item gives `dx = -1`, `dy = 0`
(the `acos(-1) = π` boundary) and an angle of exactly 0. -/
theorem angle_zero_when_dy_zero_witness :
    dyOf (cfgWith squareItem 2) (0, 0) (1, 0) = 0 ∧
    dxOf (cfgWith squareItem 2) (0, 0) (1, 0) ≠ 0 ∧
    (∃ t, _calculateRadiusAndAngle (cfgWith squareItem 2) stIdle = Except.ok t ∧
      t.angle = JSVal.num 0) :=
  ⟨dyOf_square 2, by rw [dxOf_square]; norm_num,
    angle_zero_when_dy_zero (cfgWith squareItem 2) stIdle squareItem [] rfl
      (0, 0) (1, 0) (by simp [squareItem]) (by simp [squareItem]) (dyOf_square 2)
      (by rw [dxOf_square]; norm_num)⟩

/-- C1: on a dataset whose two projected reference points coincide
(`dxy = 0`), the update pass completes and publishes `angle = NaN` in the
uniforms (with `radius = 0`): the undefined quotient `dx / dxy` is not
clamped to a finite fallback. -/
theorem degenerate_projection_publishes_nan :
    ∃ t, updateLayer (cfgWith coincidentItem 10) stViewDirty = Except.ok t ∧
      t.uniformAngle = some JSVal.nan ∧ t.uniformRadius = some (0 : ℝ) := by
  have hcal := calib_eq_of_vertices (cfgWith coincidentItem 10) stViewDirty
    coincidentItem [] rfl (1, 2) (1, 2) (by simp [coincidentItem])
    (by simp [coincidentItem])
  refine ⟨publish (cfgWith coincidentItem 10)
    { stViewDirty with
      angle := angleOf (cfgWith coincidentItem 10) (1, 2) (1, 2),
      radius := radiusOf (cfgWith coincidentItem 10) (1, 2) (1, 2) }, ?_, ?_, ?_⟩
  · rw [updateLayer_eq,
      if_neg (show ¬stViewDirty.dataChanged = true by simp [stViewDirty]),
      if_pos (show stViewDirty.viewportChanged = true from rfl), hcal]
    rfl
  · rw [(publish_fields _ _).2.1]
    exact congrArg some (angleOf_coincident 10)
  · rw [(publish_fields _ _).1]
    exact congrArg some (radiusOf_coincident 10)

end HexagonLayer
